import Mathlib

/-!
Verification development for the supply-chain analysis pipeline.

The definitions below are a shallow embedding of the Python sources:
src/bottleneck_detector.py (detection engine), src/agents.py (the three
rule agents and the decision coordinator), and src/orchestrator.py (the
7-stage pipeline driver, report assembler and real-time status query).

Modelling conventions:
- pandas DataFrames become lists of records; numeric and timestamp
  columns become rationals (timestamps are counted in days, so that
  timedelta(days = 1) is the rational 1 and .days is the floor).
- pandas float division by zero is modelled by DivRes, which carries the
  IEEE special values inf, -inf and nan that numpy produces instead of
  raising; comparisons against nan are false, as in numpy.
- a raised Python exception becomes an Except.error carrying the message;
  in the capacity detector the source reads the merged frame column
  current_utilization, which the merge never creates, so that row access
  is modelled by an explicit column lookup over the columns that do exist.
- f-string messages are modelled as plain string concatenations of the
  string-valued parts (the embedded numeric formatting is irrelevant to
  every property below, which only ever copies messages verbatim).
-/

namespace SupplyChain

/-- Result of a pandas / numpy float division: rationals extended with the
IEEE special values produced when the divisor is zero. -/
inductive DivRes where
  | val (q : ℚ)
  | posInf
  | negInf
  | nan
deriving DecidableEq

/-- numpy division a / b: division by zero yields nan (0 / 0) or a signed
infinity, never an exception. -/
def fdiv (a b : ℚ) : DivRes :=
  if b = 0 then (if a = 0 then .nan else if 0 < a then .posInf else .negInf)
  else .val (a / b)

/-- Boolean comparison d > c with IEEE semantics: nan compares false. -/
def DivRes.gtQ : DivRes → ℚ → Bool
  | .val q, c => decide (c < q)
  | .posInf, _ => true
  | .negInf, _ => false
  | .nan, _ => false

/-- Boolean comparison d < c with IEEE semantics: nan compares false. -/
def DivRes.ltQ : DivRes → ℚ → Bool
  | .val q, c => decide (q < c)
  | .posInf, _ => false
  | .negInf, _ => true
  | .nan, _ => false

/-- Python substring containment over character lists. -/
def charsContain (pat : List Char) : List Char → Bool
  | [] => pat.isPrefixOf []
  | c :: rest => pat.isPrefixOf (c :: rest) || charsContain pat rest

/-- Python substring containment: pat in s. -/
def strContains (s pat : String) : Bool := charsContain pat.data s.data

/-! Input tables (section 3 of the data model): one structure per row. -/

structure InventoryItem where
  product_id : String
  product_name : String
  current_stock : ℚ
  min_threshold : ℚ
  warehouse_id : String
  supplier_id : String
deriving DecidableEq

structure Order where
  product_id : String
  quantity : ℚ
  order_date : ℚ
  status : String
deriving DecidableEq

structure Shipment where
  shipment_id : String
  order_id : String
  carrier : String
  cost : ℚ
  ship_date : ℚ
  estimated_arrival : ℚ
  status : String
deriving DecidableEq

structure Supplier where
  supplier_id : String
  supplier_name : String
  reliability_score : ℚ
  lead_time_days : ℚ
deriving DecidableEq

structure DemandRecord where
  product_id : String
  date : ℚ
  demand_quantity : ℚ
deriving DecidableEq

structure Warehouse where
  warehouse_id : String
  warehouse_name : String
  capacity : ℚ
deriving DecidableEq

/-- The six tables returned by DataLoader.load_all_data. -/
structure SupplyData where
  inventory : List InventoryItem := []
  orders : List Order := []
  shipments : List Shipment := []
  suppliers : List Supplier := []
  demand_history : List DemandRecord := []
  warehouses : List Warehouse := []
deriving DecidableEq

/-- Bottleneck record. The Python dicts are heterogeneous; fields that only
some detectors set are Options defaulting to none (an absent dict key).
Every detector sets message and recommended_action, so those are plain
strings (the .get defaults on them elsewhere in the source are dead). -/
structure Bottleneck where
  type : String
  severity : String
  message : String := ""
  recommended_action : String := ""
  product_id : Option String := none
  product_name : Option String := none
  shipment_id : Option String := none
  order_id : Option String := none
  carrier : Option String := none
  warehouse_id : Option String := none
  warehouse_name : Option String := none
  supplier_id : Option String := none
  supplier_name : Option String := none
  current_stock : Option ℚ := none
  min_threshold : Option ℚ := none
  required_quantity : Option ℚ := none
  shortage : Option ℚ := none
  days_overdue : Option ℤ := none
  estimated_arrival : Option ℚ := none
  utilization_rate : Option DivRes := none
  capacity : Option ℚ := none
  current_demand : Option ℚ := none
  average_demand : Option ℚ := none
  date : Option ℚ := none
  reliability_score : Option ℚ := none
  affected_products : Option ℕ := none
  id : ℕ := 0
deriving DecidableEq

/-! Detection engine: BottleneckDetector in src/bottleneck_detector.py. -/

/-- Orders with status in PENDING or PROCESSING. -/
def pendingOrders (orders : List Order) : List Order :=
  orders.filter (fun o => o.status == "PENDING" || o.status == "PROCESSING")

/-- Pending-order quantity summed per product (the groupby sum merged back
onto the inventory frame, with fillna(0) for products without pending
orders; the sum over an empty selection is 0, matching the fillna). -/
def orderDemandFor (orders : List Order) (pid : String) : ℚ :=
  (((pendingOrders orders).filter (fun o => o.product_id == pid)).map (·.quantity)).sum

/-- Bottleneck built for an inventory row at or below its minimum threshold. -/
def lowStockBottleneck (item : InventoryItem) : Bottleneck :=
  { type := "INVENTORY_SHORTAGE"
    severity := if item.current_stock < item.min_threshold * 0.5 then "HIGH" else "MEDIUM"
    product_id := some item.product_id
    product_name := some item.product_name
    current_stock := some item.current_stock
    min_threshold := some item.min_threshold
    warehouse_id := some item.warehouse_id
    message := "Product " ++ item.product_name ++ " is below minimum threshold"
    recommended_action := "REORDER_IMMEDIATELY" }

/-- Bottleneck built for an inventory row whose stock cannot cover the
pending-order demand. -/
def insufficientStockBottleneck (item : InventoryItem) (required : ℚ) : Bottleneck :=
  { type := "INSUFFICIENT_STOCK_FOR_ORDERS"
    severity := "HIGH"
    product_id := some item.product_id
    product_name := some item.product_name
    current_stock := some item.current_stock
    required_quantity := some required
    shortage := some (required - item.current_stock)
    warehouse_id := some item.warehouse_id
    message := "Insufficient stock for pending orders of " ++ item.product_name
    recommended_action := "EXPEDITE_REORDER" }

/-- BottleneckDetector.detect_inventory_shortages. -/
def detect_inventory_shortages (inventory : List InventoryItem) (orders : List Order) :
    List Bottleneck :=
  let low_stock := inventory.filter (fun it => decide (it.current_stock ≤ it.min_threshold))
  let insufficient := inventory.filter
    (fun it => decide (it.current_stock < orderDemandFor orders it.product_id))
  low_stock.map lowStockBottleneck
    ++ insufficient.map (fun it => insufficientStockBottleneck it (orderDemandFor orders it.product_id))

/-- Shipments past their estimated arrival and not delivered; this predicate
is shared verbatim by the logistics agent. -/
def overdueShipments (shipments : List Shipment) (now : ℚ) : List Shipment :=
  shipments.filter (fun sp => decide (sp.estimated_arrival < now) && sp.status != "DELIVERED")

/-- Bottleneck for an overdue shipment; days_overdue is timedelta.days,
the floor of the day difference. -/
def overdueBottleneck (now : ℚ) (sp : Shipment) : Bottleneck :=
  let days_overdue : ℤ := ⌊now - sp.estimated_arrival⌋
  { type := "DELAYED_SHIPMENT"
    severity := if 3 < days_overdue then "HIGH" else "MEDIUM"
    shipment_id := some sp.shipment_id
    order_id := some sp.order_id
    carrier := some sp.carrier
    days_overdue := some days_overdue
    estimated_arrival := some sp.estimated_arrival
    message := "Shipment " ++ sp.shipment_id ++ " is overdue"
    recommended_action := "CONTACT_CARRIER" }

/-- Bottleneck for an in-transit shipment due within one day. -/
def atRiskBottleneck (sp : Shipment) : Bottleneck :=
  { type := "AT_RISK_SHIPMENT"
    severity := "MEDIUM"
    shipment_id := some sp.shipment_id
    order_id := some sp.order_id
    carrier := some sp.carrier
    estimated_arrival := some sp.estimated_arrival
    message := "Shipment " ++ sp.shipment_id ++ " may be at risk of delay"
    recommended_action := "MONITOR_CLOSELY" }

/-- BottleneckDetector.detect_delayed_shipments. -/
def detect_delayed_shipments (shipments : List Shipment) (now : ℚ) : List Bottleneck :=
  (overdueShipments shipments now).map (overdueBottleneck now)
    ++ (shipments.filter (fun sp =>
        decide (sp.estimated_arrival ≤ now + 1) && decide (now ≤ sp.estimated_arrival)
          && sp.status == "IN_TRANSIT")).map atRiskBottleneck

/-- Cell of the merged warehouse_data frame. -/
inductive Cell where
  | strv (v : String)
  | numv (v : ℚ)
  | divv (v : DivRes)
deriving DecidableEq

/-- String value of a cell (the cells read as strings are built as strings). -/
def Cell.asStr : Cell → String
  | .strv v => v
  | _ => ""

/-- Float value of a cell. -/
def Cell.asDiv : Cell → DivRes
  | .divv v => v
  | .numv v => .val v
  | _ => .nan

/-- Rational value of a cell built from a plain numeric column. -/
def Cell.asQ : Cell → ℚ
  | .numv v => v
  | .divv (.val v) => v
  | _ => 0

/-- Row of warehouse_data after the merge with the per-warehouse stock sum,
the fillna(0) on current_stock, and the utilization_rate assignment.
Exactly these five columns exist; the source's bottleneck dict literal
also reads a sixth name, current_utilization, which is absent. -/
def warehouseRow (w : Warehouse) (stock : ℚ) (util : DivRes) : List (String × Cell) :=
  [("warehouse_id", .strv w.warehouse_id),
   ("warehouse_name", .strv w.warehouse_name),
   ("capacity", .numv w.capacity),
   ("current_stock", .numv stock),
   ("utilization_rate", .divv util)]

/-- Column access row[c] on a pandas row: KeyError when the column is absent. -/
def rowGet (row : List (String × Cell)) (c : String) : Except String Cell :=
  match row.find? (fun p => p.1 == c) with
  | some p => .ok p.2
  | none => .error ("KeyError: " ++ c)

/-- Utilization column of a row (present on every merged row, so the filter
over it never fails). -/
def rowUtil (row : List (String × Cell)) : DivRes :=
  match rowGet row "utilization_rate" with
  | .ok c => c.asDiv
  | .error _ => .nan

/-- Sum of current_stock over a warehouse's inventory rows (the groupby sum,
with the left-merge fillna(0) giving 0 for warehouses without inventory). -/
def warehouseStock (inventory : List InventoryItem) (wid : String) : ℚ :=
  ((inventory.filter (fun it => it.warehouse_id == wid)).map (·.current_stock)).sum

/-- Bottleneck dict built for a high-utilization warehouse row. The reads
follow the dict-literal evaluation order of the source; the read of
current_utilization fails with KeyError because the merged frame has no
such column. -/
def capacityBottleneck (row : List (String × Cell)) : Except String Bottleneck := do
  let sevUtil := (← rowGet row "utilization_rate").asDiv
  let wid := (← rowGet row "warehouse_id").asStr
  let wname := (← rowGet row "warehouse_name").asStr
  let util := (← rowGet row "utilization_rate").asDiv
  let cap := (← rowGet row "capacity").asQ
  let _cu ← rowGet row "current_utilization"
  pure { type := "WAREHOUSE_CAPACITY_CONSTRAINT"
         severity := if sevUtil.gtQ 0.95 then "HIGH" else "MEDIUM"
         warehouse_id := some wid
         warehouse_name := some wname
         utilization_rate := some util
         capacity := some cap
         message := "Warehouse " ++ wname ++ " is at high capacity"
         recommended_action := "REDISTRIBUTE_INVENTORY" }

/-- BottleneckDetector.detect_capacity_constraints. Builds the merged rows,
filters those with utilization_rate above 0.9, and builds one bottleneck
per flagged row (which is where the KeyError of the source surfaces). -/
def detect_capacity_constraints (warehouses : List Warehouse) (inventory : List InventoryItem) :
    Except String (List Bottleneck) :=
  let rows := warehouses.map (fun w =>
    let stock := warehouseStock inventory w.warehouse_id
    warehouseRow w stock (fdiv stock w.capacity))
  let high_utilization := rows.filter (fun row => (rowUtil row).gtQ 0.9)
  high_utilization.mapM capacityBottleneck

/-- Stable insertion of a demand row into a list sorted by date. -/
def insertByDate (r : DemandRecord) : List DemandRecord → List DemandRecord
  | [] => [r]
  | x :: xs => if r.date ≤ x.date then r :: x :: xs else x :: insertByDate r xs

/-- sort_values('date') on one product's demand rows. -/
def sortByDate (l : List DemandRecord) : List DemandRecord := l.foldr insertByDate []

/-- Accumulator pass of pandas unique(): first-occurrence order, no repeats. -/
def uniqAux (acc : List String) : List DemandRecord → List String
  | [] => acc
  | r :: rest => uniqAux (if r.product_id ∈ acc then acc else acc ++ [r.product_id]) rest

/-- demand_history_df['product_id'].unique(). -/
def uniquePids (l : List DemandRecord) : List String := uniqAux [] l

/-- Value of the rolling(window 3, min_periods 1) mean at the final row:
the mean of the last min(3, n) entries. -/
def lastRolling3 (l : List ℚ) : ℚ :=
  let w := l.drop (l.length - 3)
  w.sum / (w.length : ℚ)

/-- Bottleneck built for a detected demand spike. -/
def spikeBottleneck (pid : String) (last : DemandRecord) (avg : ℚ) : Bottleneck :=
  { type := "DEMAND_SPIKE"
    severity := "MEDIUM"
    product_id := some pid
    current_demand := some last.demand_quantity
    average_demand := some avg
    date := some last.date
    message := "Demand spike detected for product " ++ pid
    recommended_action := "INCREASE_INVENTORY" }

/-- Per-product body of detect_demand_spikes: sort the product's rows by
date, skip products with fewer than 3 rows, and flag the final row exactly
when its demand exceeds its spike_threshold of 1.5 times its moving
average (which, at the final row of 3 or more, is the mean of the last 3). -/
def spikesForProduct (hist : List DemandRecord) (pid : String) : List Bottleneck :=
  let product_data := sortByDate (hist.filter (fun r => r.product_id == pid))
  if product_data.length < 3 then []
  else
    match product_data.getLast? with
    | none => []
    | some last =>
      let moving_avg := lastRolling3 (product_data.map (·.demand_quantity))
      if decide (moving_avg * 1.5 < last.demand_quantity) then
        [spikeBottleneck pid last moving_avg]
      else []

/-- BottleneckDetector.detect_demand_spikes. -/
def detect_demand_spikes (hist : List DemandRecord) : List Bottleneck :=
  (uniquePids hist).flatMap (spikesForProduct hist)

/-- Bottleneck built for a low-reliability supplier. -/
def supplierBottleneck (s : Supplier) (affected : ℕ) : Bottleneck :=
  { type := "SUPPLIER_RELIABILITY_ISSUE"
    severity := if s.reliability_score < 0.85 then "HIGH" else "MEDIUM"
    supplier_id := some s.supplier_id
    supplier_name := some s.supplier_name
    reliability_score := some s.reliability_score
    affected_products := some affected
    message := "Supplier " ++ s.supplier_name ++ " has low reliability score"
    recommended_action := "FIND_ALTERNATIVE_SUPPLIER" }

/-- BottleneckDetector.detect_supplier_issues. -/
def detect_supplier_issues (suppliers : List Supplier) (inventory : List InventoryItem) :
    List Bottleneck :=
  (suppliers.filter (fun s => decide (s.reliability_score < 0.9))).map (fun s =>
    supplierBottleneck s ((inventory.filter (fun it => it.supplier_id == s.supplier_id)).length))

/-- Sequential id assignment BN_001, BN_002, ... over the concatenated list;
the id is modelled by its integer counter. -/
def assignIds (l : List Bottleneck) : List Bottleneck :=
  l.mapIdx (fun i b => { b with id := i + 1 })

/-- BottleneckDetector.run_full_analysis: the five detectors in fixed order,
concatenated, then ids assigned. A KeyError raised inside the capacity
detector propagates (the two later detectors never run, and no list is
returned), exactly as an uncaught Python exception would. -/
def run_full_analysis (data : SupplyData) (now : ℚ) : Except String (List Bottleneck) := do
  let b1 := detect_inventory_shortages data.inventory data.orders
  let b2 := detect_delayed_shipments data.shipments now
  let b3 ← detect_capacity_constraints data.warehouses data.inventory
  let b4 := detect_demand_spikes data.demand_history
  let b5 := detect_supplier_issues data.suppliers data.inventory
  pure (assignIds (b1 ++ b2 ++ b3 ++ b4 ++ b5))

/-! Rule agents: src/agents.py. -/

/-- Recommendation record (the heterogeneous agent dicts). Every emitting
site sets type, priority, agent and message; the remaining keys are
Options defaulting to none (an absent dict key). -/
structure Recommendation where
  type : String
  priority : String
  agent : String := ""
  message : String := ""
  action : Option String := none
  product_id : Option String := none
  product_name : Option String := none
  shipment_id : Option String := none
  order_id : Option String := none
  carrier : Option String := none
  warehouse_id : Option String := none
  supplier_id : Option String := none
  bottleneck_id : Option ℕ := none
  current_demand : Option ℚ := none
  historical_avg : Option ℚ := none
  recommended_increase : Option ℚ := none
  recommended_quantity : Option ℚ := none
  current_stock : Option ℚ := none
  min_threshold : Option ℚ := none
  recommended_carrier : Option String := none
  avg_cost : Option ℚ := none
  estimated_arrival : Option ℚ := none
deriving DecidableEq

/-- Sorted insertion of a key, dropping repeats: builds the sorted unique
key list a pandas groupby (and a sorted outer merge of two groupbys)
produces. -/
def insertUniqueStr (x : String) : List String → List String
  | [] => [x]
  | y :: ys => if x = y then y :: ys else if x < y then x :: y :: ys else y :: insertUniqueStr x ys

/-- Sorted unique keys of a grouped column. -/
def sortedKeys (l : List String) : List String := l.foldr insertUniqueStr []

/-- Orders from the trailing 7 days (order_date at or after now - 7). -/
def recentOrders (orders : List Order) (now : ℚ) : List Order :=
  orders.filter (fun o => decide (now - 7 ≤ o.order_date))

/-- recent_demand: groupby('product_id') quantity sum over the recent
orders, read for one product (0 matches the outer-merge fillna(0) for a
product with no recent orders). -/
def recentOrderSum (orders : List Order) (now : ℚ) (pid : String) : ℚ :=
  (((recentOrders orders now).filter (fun o => o.product_id == pid)).map (·.quantity)).sum

/-- historical_avg: groupby('product_id') demand_quantity mean, read for one
product; 0 for a product absent from the history, matching fillna(0). -/
def histMeanFor (hist : List DemandRecord) (pid : String) : ℚ :=
  let rows := (hist.filter (fun r => r.product_id == pid)).map (·.demand_quantity)
  if rows.length = 0 then 0 else rows.sum / (rows.length : ℚ)

/-- Product keys of the outer merge of recent_demand and historical_avg:
sorted union of the two grouped key sets. -/
def demandMergePids (orders : List Order) (hist : List DemandRecord) (now : ℚ) : List String :=
  sortedKeys ((recentOrders orders now).map (·.product_id) ++ hist.map (·.product_id))

/-- Per-product variance branch of DemandMonitoringAgent.analyze_demand:
variance_ratio above 1.5 emits the HIGH spike recommendation, below 0.5
the MEDIUM low-demand one. The divisor is historical mean plus 1; fdiv
keeps the numpy division-by-zero semantics. -/
def demandVarianceRec (pid : String) (q avgq : ℚ) : Option Recommendation :=
  let vr := fdiv q (avgq + 1)
  if vr.gtQ 1.5 then
    some { type := "INCREASE_INVENTORY_FOR_DEMAND_SPIKE"
           product_id := some pid
           current_demand := some q
           historical_avg := some avgq
           recommended_increase := some (q * 0.3)
           agent := "DemandMonitor"
           priority := "HIGH"
           message := "Demand spike detected for product " ++ pid }
  else if vr.ltQ 0.5 then
    some { type := "REDUCE_INVENTORY_FOR_LOW_DEMAND"
           product_id := some pid
           current_demand := some q
           historical_avg := some avgq
           agent := "DemandMonitor"
           priority := "MEDIUM"
           message := "Low demand detected for product " ++ pid }
  else none

/-- DemandMonitoringAgent.analyze_demand (the DataLoader always supplies all
six tables, so the missing-table early return of the source is dead). -/
def analyze_demand (data : SupplyData) (bottlenecks : List Bottleneck) (now : ℚ) :
    List Recommendation :=
  let varRecs := (demandMergePids data.orders data.demand_history now).filterMap (fun pid =>
    demandVarianceRec pid (recentOrderSum data.orders now pid)
      (histMeanFor data.demand_history pid))
  let bnRecs := (bottlenecks.filter (fun b => strContains b.type "DEMAND")).map (fun b =>
    { type := "ADDRESS_DEMAND_BOTTLENECK"
      bottleneck_id := some b.id
      product_id := b.product_id
      agent := "DemandMonitor"
      priority := "HIGH"
      action := some "FORECAST_ADJUSTMENT"
      message := "Address demand bottleneck: " ++ b.message })
  varRecs ++ bnRecs

/-- EMERGENCY_REORDER recommendation for a critically low inventory row. -/
def emergencyReorderRec (item : InventoryItem) : Recommendation :=
  { type := "EMERGENCY_REORDER"
    product_id := some item.product_id
    product_name := some item.product_name
    current_stock := some item.current_stock
    min_threshold := some item.min_threshold
    recommended_quantity := some (item.min_threshold * 2)
    warehouse_id := some item.warehouse_id
    supplier_id := some item.supplier_id
    agent := "InventoryManager"
    priority := "HIGH"
    message := "Emergency reorder needed for " ++ item.product_name }

/-- STANDARD_REORDER recommendation for a below-minimum inventory row. -/
def standardReorderRec (item : InventoryItem) : Recommendation :=
  { type := "STANDARD_REORDER"
    product_id := some item.product_id
    product_name := some item.product_name
    current_stock := some item.current_stock
    min_threshold := some item.min_threshold
    recommended_quantity := some (item.min_threshold * 1.5)
    warehouse_id := some item.warehouse_id
    supplier_id := some item.supplier_id
    agent := "InventoryManager"
    priority := "MEDIUM"
    message := "Standard reorder recommended for " ++ item.product_name }

/-- Stock-level branch of InventoryAgent.optimize_inventory: the numpy
quotient current_stock / min_threshold is below 0.5, below 1.0, or
neither (a zero threshold gives inf or nan, both of which compare false,
so no recommendation). -/
def stockLevelRec (item : InventoryItem) : Option Recommendation :=
  let sr := fdiv item.current_stock item.min_threshold
  if sr.ltQ 0.5 then some (emergencyReorderRec item)
  else if sr.ltQ 1.0 then some (standardReorderRec item)
  else none

/-- InventoryAgent.optimize_inventory. The action of a bottleneck-driven
recommendation copies the bottleneck's recommended_action (the REORDER
default of the source's .get is dead: every detector sets the key). -/
def optimize_inventory (data : SupplyData) (bottlenecks : List Bottleneck) :
    List Recommendation :=
  data.inventory.filterMap stockLevelRec
    ++ (bottlenecks.filter (fun b => strContains b.type "INVENTORY")).map (fun b =>
      { type := "RESOLVE_INVENTORY_BOTTLENECK"
        bottleneck_id := some b.id
        product_id := b.product_id
        warehouse_id := b.warehouse_id
        agent := "InventoryManager"
        priority := "HIGH"
        action := some b.recommended_action
        message := "Resolve inventory bottleneck: " ++ b.message })

/-- EXPEDITE_DELAYED_SHIPMENT recommendation for an overdue shipment. -/
def expediteRec (sp : Shipment) : Recommendation :=
  { type := "EXPEDITE_DELAYED_SHIPMENT"
    shipment_id := some sp.shipment_id
    order_id := some sp.order_id
    carrier := some sp.carrier
    estimated_arrival := some sp.estimated_arrival
    agent := "LogisticsOptimizer"
    priority := "HIGH"
    action := some "CONTACT_CARRIER"
    message := "Expedite delayed shipment " ++ sp.shipment_id }

/-- Mean shipping cost of one carrier (carrier groups are nonempty, so the
zero guard is never live on grouped keys). -/
def carrierAvgCost (shipments : List Shipment) (c : String) : ℚ :=
  let costs := (shipments.filter (fun sp => sp.carrier == c)).map (·.cost)
  if costs.length = 0 then 0 else costs.sum / (costs.length : ℚ)

/-- idxmin over the carrier_performance frame: the first carrier, in the
sorted grouped order, attaining the minimal mean cost. -/
def cheapestCarrier (shipments : List Shipment) : Option String :=
  (sortedKeys (shipments.map (·.carrier))).foldl (fun best c =>
    match best with
    | none => some c
    | some b => if carrierAvgCost shipments c < carrierAvgCost shipments b then some c else best)
    none

/-- LogisticsAgent.optimize_logistics. -/
def optimize_logistics (data : SupplyData) (bottlenecks : List Bottleneck) (now : ℚ) :
    List Recommendation :=
  let delayed := (overdueShipments data.shipments now).map expediteRec
  let carrierRec : List Recommendation :=
    if 1 < (sortedKeys (data.shipments.map (·.carrier))).length then
      match cheapestCarrier data.shipments with
      | some c =>
        [{ type := "OPTIMIZE_CARRIER_SELECTION"
           recommended_carrier := some c
           avg_cost := some (carrierAvgCost data.shipments c)
           agent := "LogisticsOptimizer"
           priority := "MEDIUM"
           message := "Consider using " ++ c ++ " for cost optimization" }]
      | none => []
    else []
  let bnRecs := (bottlenecks.filter
      (fun b => strContains b.type "SHIPMENT" || strContains b.type "DELAYED")).map (fun b =>
    { type := "RESOLVE_LOGISTICS_BOTTLENECK"
      bottleneck_id := some b.id
      shipment_id := b.shipment_id
      carrier := b.carrier
      agent := "LogisticsOptimizer"
      priority := "HIGH"
      action := some b.recommended_action
      message := "Resolve logistics bottleneck: " ++ b.message })
  delayed ++ carrierRec ++ bnRecs

/-! Decision coordinator: OrchestratorAgent.make_decisions in src/agents.py. -/

/-- Decision record. decision_id models the integer in the DEC_nnn label
(the source formats len(final_decisions) + 1 with 3 digits). details keeps
the source recommendation or bottleneck stored under the details key. -/
structure Decision where
  decision_id : ℕ
  type : String
  action : String
  priority : String
  status : String
  product_id : Option String := none
  shipment_id : Option String := none
  carrier : Option String := none
  bottleneck_id : Option ℕ := none
  details_rec : Option Recommendation := none
  details_bn : Option Bottleneck := none
deriving DecidableEq

/-- Append a decision, giving it the id len(final_decisions) + 1 exactly as
the source's f-string DEC_ label does at each append site. -/
def pushDecision (acc : List Decision) (d : Decision) : List Decision :=
  acc ++ [{ d with decision_id := acc.length + 1 }]

/-- One step of the grouping loop: Python dict insertion order, appending
the recommendation to its type's group or opening a new group at the end. -/
def addToGroups (gs : List (String × List Recommendation)) (r : Recommendation) :
    List (String × List Recommendation) :=
  if gs.any (fun g => g.1 == r.type) then
    gs.map (fun g => if g.1 == r.type then (g.1, g.2 ++ [r]) else g)
  else gs ++ [(r.type, [r])]

/-- One step of the per-product consolidation inside a REORDER or INVENTORY
group. A falsy product_id (absent key or empty string) is skipped; a later
HIGH recommendation replaces a kept non-HIGH one for the same product. -/
def addToProducts (ps : List (String × Recommendation)) (r : Recommendation) :
    List (String × Recommendation) :=
  match r.product_id with
  | none => ps
  | some pid =>
    if pid = "" then ps
    else if ps.any (fun p => p.1 == pid) then
      ps.map (fun p =>
        if p.1 == pid then
          (if r.priority == "HIGH" && p.2.priority != "HIGH" then (pid, r) else p)
        else p)
    else ps ++ [(pid, r)]

/-- Decisions emitted for one recommendation-type group, appended to the
accumulated decision list. -/
def processGroup (acc : List Decision) (g : String × List Recommendation) : List Decision :=
  if strContains g.1 "REORDER" || strContains g.1 "INVENTORY" then
    let products := g.2.foldl addToProducts []
    products.foldl (fun acc p =>
      pushDecision acc
        { decision_id := 0
          type := "INVENTORY_ACTION"
          action := p.2.type
          product_id := some p.1
          priority := p.2.priority
          status := "APPROVED"
          details_rec := some p.2 }) acc
  else if strContains g.1 "LOGISTICS" || strContains g.1 "SHIPMENT" then
    g.2.foldl (fun acc r =>
      pushDecision acc
        { decision_id := 0
          type := "LOGISTICS_ACTION"
          action := r.type
          shipment_id := r.shipment_id
          carrier := r.carrier
          priority := r.priority
          status := "APPROVED"
          details_rec := some r }) acc
  else
    g.2.foldl (fun acc r =>
      pushDecision acc
        { decision_id := 0
          type := "GENERAL_ACTION"
          action := r.type
          priority := r.priority
          status := "APPROVED"
          details_rec := some r }) acc

/-- OrchestratorAgent.make_decisions. HIGH-priority recommendations are
grouped before MEDIUM ones; each type group emits its decisions; then one
CRITICAL_BOTTLENECK_RESOLUTION decision is appended per HIGH-severity
bottleneck, all sharing the one id counter. The data argument is unused by
the source body as well. -/
def make_decisions (_data : SupplyData) (bottlenecks : List Bottleneck)
    (recommendations : List Recommendation) : List Decision :=
  let high_priority_recs := recommendations.filter (fun r => r.priority == "HIGH")
  let medium_priority_recs := recommendations.filter (fun r => r.priority == "MEDIUM")
  let decision_groups := (high_priority_recs ++ medium_priority_recs).foldl addToGroups []
  let recDecisions := decision_groups.foldl processGroup []
  (bottlenecks.filter (fun b => b.severity == "HIGH")).foldl (fun acc b =>
    pushDecision acc
      { decision_id := 0
        type := "CRITICAL_BOTTLENECK_RESOLUTION"
        action := b.recommended_action
        bottleneck_id := some b.id
        priority := "CRITICAL"
        status := "URGENT"
        details_bn := some b }) recDecisions

/-! Report assembler and pipeline driver: src/orchestrator.py. -/

/-- Alert entry of the final report. -/
structure Alert where
  type : String
  message : String
  action_required : String
  severity : String
deriving DecidableEq

/-- Summary block of the final report. -/
structure ReportSummary where
  total_bottlenecks : ℕ
  critical_bottlenecks : ℕ
  total_recommendations : ℕ
  high_priority_items : ℕ
  total_alerts : ℕ
deriving DecidableEq

/-- Final report (timestamp, the detector-held summary map and the
DataLoader data_summary are owned by external collaborators and omitted). -/
structure Report where
  status : String
  summary : ReportSummary
  bottlenecks_details : List Bottleneck
  recommendations : List Recommendation
  final_decisions : List Decision
  alerts : List Alert
deriving DecidableEq

/-- SupplyChainState of src/agents.py restricted to the fields the pipeline
reads or writes (agent_messages, current_agent and iteration are write-only
telemetry in the source and are omitted). -/
structure RunState where
  data : SupplyData := {}
  bottlenecks : List Bottleneck := []
  recommendations : List Recommendation := []
  final_decisions : List Decision := []
  final_report : Option Report := none
  report_filename : String := ""
  status : String := "INITIALIZING"
  error : String := ""
deriving DecidableEq

/-- Freshly constructed SupplyChainState(). -/
def initialRunState : RunState := {}

/-- Alert built from a HIGH-severity bottleneck. -/
def bottleneckAlert (b : Bottleneck) : Alert :=
  { type := "CRITICAL_BOTTLENECK"
    message := b.message
    action_required := b.recommended_action
    severity := "HIGH" }

/-- Alert built from a HIGH-priority recommendation: severity is the literal
MEDIUM, and the action_required falls back to REVIEW when the
recommendation carries no action key. -/
def recommendationAlert (r : Recommendation) : Alert :=
  { type := "HIGH_PRIORITY_RECOMMENDATION"
    message := r.message
    action_required := r.action.getD "REVIEW"
    severity := "MEDIUM" }

/-- SupplyChainOrchestrator.create_comprehensive_report. The two alert loops
append conditionally, exactly as the source's for-loops with an if do. -/
def create_comprehensive_report (state : RunState) : Report :=
  let total_bottlenecks := state.bottlenecks.length
  let critical_bottlenecks := (state.bottlenecks.filter (fun b => b.severity == "HIGH")).length
  let total_recommendations := state.recommendations.length
  let high_priority_recs := (state.recommendations.filter (fun r => r.priority == "HIGH")).length
  let overall_status :=
    if 5 < critical_bottlenecks then "CRITICAL"
    else if 2 < critical_bottlenecks then "WARNING"
    else "NORMAL"
  let alerts := state.bottlenecks.foldl (fun acc b =>
    if b.severity == "HIGH" then acc ++ [bottleneckAlert b] else acc) []
  let alerts := state.recommendations.foldl (fun acc r =>
    if r.priority == "HIGH" then acc ++ [recommendationAlert r] else acc) alerts
  { status := overall_status
    summary :=
      { total_bottlenecks := total_bottlenecks
        critical_bottlenecks := critical_bottlenecks
        total_recommendations := total_recommendations
        high_priority_items := high_priority_recs
        total_alerts := alerts.length }
    bottlenecks_details := state.bottlenecks
    recommendations := state.recommendations
    final_decisions := state.final_decisions
    alerts := alerts }

/-- One workflow stage: its Python function name, the status it sets on
success, whether it starts with the if state.status == FAILED guard
(load_data_node is the one stage without it), and its try-block body. The
body returns the updated state or the message of the exception it raised. -/
structure Stage where
  name : String
  okStatus : String
  guarded : Bool
  body : RunState → Except String RunState

/-- Run one stage on the state: the FAILED guard returns the state
unchanged; otherwise the body runs, and either the success status is set
or the exception message is stored with status FAILED. -/
def runStage (st : Stage) (s : RunState) : RunState :=
  if st.guarded ∧ s.status = "FAILED" then s
  else
    match st.body s with
    | .ok s' => { s' with status := st.okStatus }
    | .error e => { s with status := "FAILED", error := e }

/-- Sequential execution of a stage list (no early return); the driver's
visited states are exactly those of prefixes of the stage list. -/
def execStages (stages : List Stage) (s : RunState) : RunState :=
  stages.foldl (fun s st => runStage st s) s

/-- The 7 workflow_steps of SupplyChainOrchestrator, parametrized by the
external collaborators: loadResult stands for DataLoader.load_all_data
(typed tables or a validation error), now for datetime.now(), and
sinkResult for the report file write (the saved filename or an I/O
error). Each body reproduces the corresponding node's try-block. -/
def workflow_steps (loadResult : Except String SupplyData) (now : ℚ)
    (sinkResult : Except String String) : List Stage :=
  [{ name := "load_data_node", okStatus := "DATA_LOADED", guarded := false,
     body := fun s => loadResult.map (fun d => { s with data := d }) },
   { name := "detect_bottlenecks_node", okStatus := "BOTTLENECKS_DETECTED", guarded := true,
     body := fun s => (run_full_analysis s.data now).map (fun bs => { s with bottlenecks := bs }) },
   { name := "demand_monitoring_node", okStatus := "DEMAND_ANALYZED", guarded := true,
     body := fun s => .ok { s with
       recommendations := s.recommendations ++ analyze_demand s.data s.bottlenecks now } },
   { name := "inventory_management_node", okStatus := "INVENTORY_OPTIMIZED", guarded := true,
     body := fun s => .ok { s with
       recommendations := s.recommendations ++ optimize_inventory s.data s.bottlenecks } },
   { name := "logistics_optimization_node", okStatus := "LOGISTICS_OPTIMIZED", guarded := true,
     body := fun s => .ok { s with
       recommendations := s.recommendations ++ optimize_logistics s.data s.bottlenecks now } },
   { name := "orchestration_node", okStatus := "DECISIONS_MADE", guarded := true,
     body := fun s => .ok { s with
       final_decisions := make_decisions s.data s.bottlenecks s.recommendations } },
   { name := "generate_report_node", okStatus := "COMPLETED", guarded := true,
     body := fun s => sinkResult.map (fun fn => { s with
       final_report := some (create_comprehensive_report s), report_filename := fn }) }]

/-- Value returned by SupplyChainOrchestrator.run_analysis. -/
inductive RunResult where
  | success (final_report : Option Report) (report_filename : String)
  | failure (error : String) (failed_step : String)
deriving DecidableEq

/-- The driver loop of run_analysis: step through the stages, and return
the failure dict naming the current step as soon as a step leaves the
state FAILED. The second component counts how many stages were invoked. -/
def runLoop : List Stage → RunState → RunResult × ℕ
  | [], s => (.success s.final_report s.report_filename, 0)
  | st :: rest, s =>
    let s' := runStage st s
    if s'.status = "FAILED" then (.failure s'.error st.name, 1)
    else
      let r := runLoop rest s'
      (r.1, r.2 + 1)

/-- SupplyChainOrchestrator.run_analysis on a fresh state. -/
def run_analysis (loadResult : Except String SupplyData) (now : ℚ)
    (sinkResult : Except String String) : RunResult × ℕ :=
  runLoop (workflow_steps loadResult now sinkResult) initialRunState

/-- Value returned by SupplyChainOrchestrator.get_real_time_status; on an
exception the except-branch dict carries status ERROR and the message. -/
structure RTStatus where
  overall_status : String
  total_bottlenecks : ℕ
  critical_issues_count : ℕ
  critical_issues : List Bottleneck
  health_inventory : String
  health_shipments : String
  health_suppliers : String
  error : Option String := none
deriving DecidableEq

/-- SupplyChainOrchestrator.get_real_time_status: reload the data, rerun the
detector, and classify. Any exception (from the loader or from the
capacity detector's KeyError) lands in the except branch. -/
def get_real_time_status (loadResult : Except String SupplyData) (now : ℚ) : RTStatus :=
  match loadResult >>= (fun d => run_full_analysis d now) with
  | .error e =>
    { overall_status := "ERROR", total_bottlenecks := 0, critical_issues_count := 0,
      critical_issues := [], health_inventory := "", health_shipments := "",
      health_suppliers := "", error := some e }
  | .ok bottlenecks =>
    let critical_issues := bottlenecks.filter (fun b => b.severity == "HIGH")
    { overall_status :=
        if 3 < critical_issues.length then "CRITICAL"
        else if 0 < critical_issues.length then "WARNING"
        else "NORMAL"
      total_bottlenecks := bottlenecks.length
      critical_issues_count := critical_issues.length
      critical_issues := critical_issues.take 5
      health_inventory :=
        if 0 < (bottlenecks.filter (fun b => strContains b.type "INVENTORY")).length
        then "WARNING" else "GOOD"
      health_shipments :=
        if 0 < (bottlenecks.filter (fun b => strContains b.type "SHIPMENT")).length
        then "WARNING" else "GOOD"
      health_suppliers :=
        if 0 < (bottlenecks.filter (fun b => strContains b.type "SUPPLIER")).length
        then "WARNING" else "GOOD" }

/-! Predicates used by the verification statements. -/

/-- Sortedness by date of a demand-row list (pairwise on neighbours),
decidable so that concrete witnesses can evaluate it. -/
def isSortedByDate : List DemandRecord → Bool
  | [] => true
  | [_] => true
  | a :: b :: t => decide (a.date ≤ b.date) && isSortedByDate (b :: t)

/-- Identifier discipline of a decision list: the i-th decision (0-based)
carries counter value i + 1, so the DEC_ labels read DEC_001, DEC_002, ...
with no gap and no reset. -/
def GoodIds (l : List Decision) : Prop :=
  ∀ i (h : i < l.length), (l.get ⟨i, h⟩).decision_id = i + 1

/-- Run-state invariant of the claim: status is FAILED exactly when the
error field is nonempty. -/
def StatusErrorInv (s : RunState) : Prop := s.status = "FAILED" ↔ s.error ≠ ""

/-- Facts about a stage record used by the invariant proof: its success
status is not the FAILED literal, messages of raised errors are nonempty,
and a successful body leaves the error field untouched. -/
def StageOk (st : Stage) : Prop :=
  st.okStatus ≠ "FAILED"
    ∧ (∀ s e, st.body s = .error e → e ≠ "")
    ∧ (∀ s s', st.body s = .ok s' → s'.error = s.error)

/-- Shape invariant of every decision the coordinator emits: being the
bottleneck-escalation kind, having priority CRITICAL and having status
URGENT are all equivalent, and every other decision is APPROVED with the
priority of the recommendation stored in its details. -/
def DecisionShapeOk (d : Decision) : Prop :=
  ((d.type = "CRITICAL_BOTTLENECK_RESOLUTION" ↔ d.priority = "CRITICAL")
      ∧ (d.type = "CRITICAL_BOTTLENECK_RESOLUTION" ↔ d.status = "URGENT"))
    ∧ (d.type ≠ "CRITICAL_BOTTLENECK_RESOLUTION" →
        d.status = "APPROVED" ∧ ∃ r, d.details_rec = some r ∧ d.priority = r.priority)

/-- Priority of a recommendation that survives the coordinator's HIGH/MEDIUM
prioritization (a CRITICAL-priority recommendation would be dropped by
both filters, never reaching a group). -/
def RecPriOk (r : Recommendation) : Prop := r.priority = "HIGH" ∨ r.priority = "MEDIUM"

/-- Decidable equality for Except values, so that concrete detector results
can be checked by decide. -/
instance {ε α : Type} [DecidableEq ε] [DecidableEq α] : DecidableEq (Except ε α) := fun x y =>
  match x, y with
  | .ok a, .ok b =>
    if h : a = b then .isTrue (by rw [h]) else .isFalse (by intro hc; cases hc; exact h rfl)
  | .error a, .error b =>
    if h : a = b then .isTrue (by rw [h]) else .isFalse (by intro hc; cases hc; exact h rfl)
  | .ok _, .error _ => .isFalse (by intro hc; cases hc)
  | .error _, .ok _ => .isFalse (by intro hc; cases hc)

/-! Theorems. -/

/-- C1 counterexample. The claim says the coordinator keeps exactly one
INVENTORY_ACTION decision when a MEDIUM STANDARD_REORDER and a HIGH
EMERGENCY_REORDER target the same product. On the code this is false:
the two recommendations have different type fields, so they land in
different groups and the per-product consolidation never compares them;
two INVENTORY_ACTION decisions for P1 come out (here shown for the
standard-then-emergency input order). -/
theorem c1_claim_counterexample :
    ¬ (((make_decisions {} []
          [{ type := "STANDARD_REORDER", priority := "MEDIUM", product_id := some "P1",
             agent := "InventoryManager" },
           { type := "EMERGENCY_REORDER", priority := "HIGH", product_id := some "P1",
             agent := "InventoryManager" }]).filter
          (fun d => d.type == "INVENTORY_ACTION" && d.product_id == some "P1")).length = 1) := by
  decide

/-- C1 amended. For the scenario input (one MEDIUM STANDARD_REORDER and one
HIGH EMERGENCY_REORDER for product P1, in either order) the coordinator
emits exactly two INVENTORY_ACTION decisions for P1: consolidation is per
recommendation-type group, and the HIGH emergency one is ordered first
with priority HIGH, the standard one second with priority MEDIUM. -/
theorem c1_amended :
    ((make_decisions {} []
        [{ type := "STANDARD_REORDER", priority := "MEDIUM", product_id := some "P1",
           agent := "InventoryManager" },
         { type := "EMERGENCY_REORDER", priority := "HIGH", product_id := some "P1",
           agent := "InventoryManager" }]).filter
        (fun d => d.type == "INVENTORY_ACTION" && d.product_id == some "P1")).map
        (fun d => (d.action, d.priority))
      = [("EMERGENCY_REORDER", "HIGH"), ("STANDARD_REORDER", "MEDIUM")]
    ∧ ((make_decisions {} []
        [{ type := "EMERGENCY_REORDER", priority := "HIGH", product_id := some "P1",
           agent := "InventoryManager" },
         { type := "STANDARD_REORDER", priority := "MEDIUM", product_id := some "P1",
           agent := "InventoryManager" }]).filter
        (fun d => d.type == "INVENTORY_ACTION" && d.product_id == some "P1")).map
        (fun d => (d.action, d.priority))
      = [("EMERGENCY_REORDER", "HIGH"), ("STANDARD_REORDER", "MEDIUM")] := by
  constructor
  · rfl
  · rfl

/-- C2. The capacity detector raises instead of returning: a warehouse of
capacity 100 holding stock 95 has utilization 0.95, above the 0.9
threshold, so the source builds the bottleneck dict and reads the merged
frame's nonexistent current_utilization column, a KeyError. Below the
threshold the detector returns an empty list without error. -/
theorem c2_capacity_keyerror :
    detect_capacity_constraints [{ warehouse_id := "W1", warehouse_name := "Main", capacity := 100 }]
        [{ product_id := "P1", product_name := "Widget", current_stock := 95,
           min_threshold := 10, warehouse_id := "W1", supplier_id := "S1" }]
      = .error "KeyError: current_utilization"
    ∧ detect_capacity_constraints [{ warehouse_id := "W1", warehouse_name := "Main", capacity := 100 }]
        [{ product_id := "P1", product_name := "Widget", current_stock := 50,
           min_threshold := 10, warehouse_id := "W1", supplier_id := "S1" }]
      = .ok [] := by
  constructor
  · with_unfolding_all decide
  · with_unfolding_all decide

/-- C8. Zero-denominator and sparse inputs are mostly quiet: empty tables
make the whole detector run return an empty bottleneck list, a zero
min_threshold yields no reorder recommendation (inf and nan compare
false), and a zero-capacity warehouse with zero stock is not flagged
(nan utilization). But a zero-capacity warehouse with positive stock has
infinite utilization, enters the flagging branch and hits the
current_utilization KeyError: the code raises where the claim requires
it to return quietly. -/
theorem c8_zero_denominator_keyerror :
    detect_capacity_constraints [{ warehouse_id := "W1", warehouse_name := "Main", capacity := 0 }]
        [{ product_id := "P1", product_name := "Widget", current_stock := 5,
           min_threshold := 10, warehouse_id := "W1", supplier_id := "S1" }]
      = .error "KeyError: current_utilization"
    ∧ detect_capacity_constraints [{ warehouse_id := "W1", warehouse_name := "Main", capacity := 0 }]
        [{ product_id := "P1", product_name := "Widget", current_stock := 0,
           min_threshold := 10, warehouse_id := "W1", supplier_id := "S1" }]
      = .ok []
    ∧ run_full_analysis {} 0 = .ok []
    ∧ optimize_inventory
        { inventory := [{ product_id := "P1", product_name := "Widget", current_stock := 7,
                          min_threshold := 0, warehouse_id := "W1", supplier_id := "S1" }] } [] = []
    ∧ detect_demand_spikes [{ product_id := "P", date := 1, demand_quantity := 1000 },
        { product_id := "P", date := 2, demand_quantity := 9999 }] = [] := by
  refine ⟨by with_unfolding_all decide, by with_unfolding_all decide, by with_unfolding_all decide,
    by with_unfolding_all decide, by with_unfolding_all decide⟩

/-- Generic invariant lemma for left folds: a property of the accumulator
preserved by every step survives the whole fold. -/
theorem foldl_inv {α β : Type} (P : β → Prop) (Q : α → Prop) (f : β → α → β)
    (hf : ∀ b a, P b → Q a → P (f b a)) :
    ∀ (l : List α) (b : β), P b → (∀ a ∈ l, Q a) → P (List.foldl f b l)
  | [], _, hb, _ => hb
  | a :: l, b, hb, hl =>
    foldl_inv P Q f hf l (f b a) (hf b a hb (hl a (by simp)))
      (fun x hx => hl x (by simp [hx]))

/-- Conditional-append loops are filter-then-map. -/
theorem foldl_ifappend {α β : Type} (p : α → Bool) (f : α → β) :
    ∀ (l : List α) (init : List β),
      List.foldl (fun acc x => if p x then acc ++ [f x] else acc) init l
        = init ++ (l.filter p).map f
  | [], init => by simp
  | a :: l, init => by
    cases hpa : p a <;>
      simp [List.filter_cons, hpa, foldl_ifappend p f l]

/-- C6. The report's alert list is exactly one CRITICAL_BOTTLENECK alert per
HIGH-severity bottleneck followed by one HIGH_PRIORITY_RECOMMENDATION
alert per HIGH-priority recommendation, total_alerts is the sum of the
two counts, and the recommendation alerts force severity MEDIUM and
default the action to REVIEW when the recommendation carries none. -/
theorem c6_alerts_exact (state : RunState) :
    (create_comprehensive_report state).alerts
        = ((state.bottlenecks.filter (fun b => b.severity == "HIGH")).map bottleneckAlert)
          ++ ((state.recommendations.filter (fun r => r.priority == "HIGH")).map
              recommendationAlert)
    ∧ (create_comprehensive_report state).summary.total_alerts
        = (state.bottlenecks.filter (fun b => b.severity == "HIGH")).length
          + (state.recommendations.filter (fun r => r.priority == "HIGH")).length
    ∧ (∀ r : Recommendation, (recommendationAlert r).severity = "MEDIUM"
        ∧ (recommendationAlert r).message = r.message
        ∧ (recommendationAlert r).action_required = r.action.getD "REVIEW")
    ∧ (∀ b : Bottleneck, (bottleneckAlert b).severity = "HIGH"
        ∧ (bottleneckAlert b).message = b.message
        ∧ (bottleneckAlert b).action_required = b.recommended_action) := by
  refine ⟨?_, ?_, fun r => ⟨rfl, rfl, rfl⟩, fun b => ⟨rfl, rfl, rfl⟩⟩
  · show List.foldl _ (List.foldl _ [] _) _ = _
    rw [foldl_ifappend, foldl_ifappend]
    simp
  · show (List.foldl _ (List.foldl _ [] _) _).length = _
    rw [foldl_ifappend, foldl_ifappend]
    simp

/-- Appending a decision through pushDecision keeps the id discipline: the
new element receives exactly the next counter value. -/
theorem goodIds_push (acc : List Decision) (d : Decision) (h : GoodIds acc) :
    GoodIds (pushDecision acc d) := by
  intro i hi
  unfold pushDecision at hi ⊢
  simp only [List.length_append, List.length_singleton] at hi
  by_cases hlt : i < acc.length
  · rw [List.get_append i hlt]
    exact h i hlt
  · have hieq : i = acc.length := by omega
    subst hieq
    simp

/-- All three branches of processGroup only extend the accumulator through
pushDecision, so the id discipline survives a whole group. -/
theorem goodIds_processGroup (acc : List Decision) (g : String × List Recommendation)
    (h : GoodIds acc) : GoodIds (processGroup acc g) := by
  unfold processGroup
  split
  · exact foldl_inv GoodIds (fun _ => True) _
      (fun b a hb _ => goodIds_push b _ hb) _ acc h (fun _ _ => trivial)
  · split
    · exact foldl_inv GoodIds (fun _ => True) _
        (fun b a hb _ => goodIds_push b _ hb) _ acc h (fun _ _ => trivial)
    · exact foldl_inv GoodIds (fun _ => True) _
        (fun b a hb _ => goodIds_push b _ hb) _ acc h (fun _ _ => trivial)

/-- C5. Every decision list the coordinator produces carries ids 1, 2, 3, ...
in order: the i-th decision (0-based) of make_decisions has counter value
i + 1, whatever mix of INVENTORY_ACTION, LOGISTICS_ACTION, GENERAL_ACTION
and CRITICAL_BOTTLENECK_RESOLUTION decisions the run generates, so the
DEC_ labels are strictly increasing and contiguous across all kinds. -/
theorem c5_decision_ids_contiguous (data : SupplyData) (bottlenecks : List Bottleneck)
    (recommendations : List Recommendation) (i : ℕ)
    (h : i < (make_decisions data bottlenecks recommendations).length) :
    ((make_decisions data bottlenecks recommendations).get ⟨i, h⟩).decision_id = i + 1 := by
  have hall : GoodIds (make_decisions data bottlenecks recommendations) := by
    unfold make_decisions
    refine foldl_inv GoodIds (fun _ => True) _
      (fun b a hb _ => goodIds_push b _ hb) _ _ ?_ (fun _ _ => trivial)
    refine foldl_inv GoodIds (fun _ => True) _
      (fun b a hb _ => goodIds_processGroup b a hb) _ _ ?_ (fun _ _ => trivial)
    intro i hi
    simp at hi
  exact hall i h

/-- C5 witness: a concrete two-decision run, checked on the first index. -/
theorem c5_decision_ids_contiguous_witness :
    ((make_decisions {}
        [{ type := "DEMAND_SPIKE", severity := "HIGH", recommended_action := "INCREASE_INVENTORY",
           id := 1 }]
        [{ type := "EMERGENCY_REORDER", priority := "HIGH", product_id := some "P1",
           agent := "InventoryManager" }]).get ⟨1, by decide⟩).decision_id = 1 + 1 :=
  c5_decision_ids_contiguous {}
    [{ type := "DEMAND_SPIKE", severity := "HIGH", recommended_action := "INCREASE_INVENTORY",
       id := 1 }]
    [{ type := "EMERGENCY_REORDER", priority := "HIGH", product_id := some "P1",
       agent := "InventoryManager" }] 1 (by decide)

/-- The decision-id override of pushDecision does not affect the shape
invariant, which never inspects decision_id. -/
theorem shapeOk_setId (d : Decision) (n : ℕ) (hd : DecisionShapeOk d) :
    DecisionShapeOk { d with decision_id := n } := by
  cases d
  exact hd

/-- Membership after pushDecision: the old elements or the new decision. -/
theorem shapeOk_push (acc : List Decision) (d : Decision)
    (hacc : ∀ x ∈ acc, DecisionShapeOk x) (hd : DecisionShapeOk d) :
    ∀ x ∈ pushDecision acc d, DecisionShapeOk x := by
  intro x hx
  unfold pushDecision at hx
  rcases List.mem_append.mp hx with h | h
  · exact hacc x h
  · rcases List.mem_singleton.mp h with rfl
    exact shapeOk_setId d _ hd

/-- The per-product consolidation only ever stores recommendations fed to
it, so the surviving entries keep the HIGH-or-MEDIUM priority property. -/
theorem productsOk_foldl (l : List Recommendation) (hl : ∀ r ∈ l, RecPriOk r) :
    ∀ p ∈ l.foldl addToProducts [], RecPriOk p.2 := by
  refine foldl_inv (fun ps => ∀ p ∈ ps, RecPriOk p.2) RecPriOk addToProducts ?_ l []
    (by intro p hp; simp at hp) hl
  intro ps r hps hr p hp
  unfold addToProducts at hp
  rcases hpid : r.product_id with _ | pid
  · rw [hpid] at hp
    exact hps p hp
  · rw [hpid] at hp
    dsimp only at hp
    by_cases hemp : pid = ""
    · rw [if_pos hemp] at hp
      exact hps p hp
    · rw [if_neg hemp] at hp
      split at hp
      · rcases List.mem_map.mp hp with ⟨q, hq, hqe⟩
        by_cases hqpid : (q.1 == pid) = true
        · rw [if_pos hqpid] at hqe
          split at hqe
          · rcases hqe with rfl
            exact hr
          · rcases hqe with rfl
            exact hps q hq
        · rw [if_neg hqpid] at hqe
          rcases hqe with rfl
          exact hps q hq
      · rcases List.mem_append.mp hp with h | h
        · exact hps p h
        · rcases List.mem_singleton.mp h with rfl
          exact hr

/-- Decisions a group emits all satisfy the shape invariant, provided every
recommendation in the group has priority HIGH or MEDIUM. -/
theorem shapeOk_processGroup (acc : List Decision) (g : String × List Recommendation)
    (hacc : ∀ x ∈ acc, DecisionShapeOk x) (hg : ∀ r ∈ g.2, RecPriOk r) :
    ∀ x ∈ processGroup acc g, DecisionShapeOk x := by
  unfold processGroup
  split
  · refine foldl_inv (fun ds => ∀ x ∈ ds, DecisionShapeOk x) (fun p => RecPriOk p.2) _
      ?_ _ acc hacc (productsOk_foldl g.2 hg)
    intro ds p hds hp
    refine shapeOk_push ds _ hds ?_
    refine ⟨⟨?_, ?_⟩, ?_⟩
    · constructor
      · intro h; exact absurd h (by simp)
      · intro h
        rcases hp with hp | hp <;> rw [hp] at h <;> exact absurd h (by simp)
    · constructor
      · intro h; exact absurd h (by simp)
      · intro h; exact absurd h (by simp)
    · intro _
      exact ⟨rfl, p.2, rfl, rfl⟩
  · split
    all_goals
      refine foldl_inv (fun ds => ∀ x ∈ ds, DecisionShapeOk x) RecPriOk _ ?_ _ acc hacc hg
      intro ds r hds hr
      refine shapeOk_push ds _ hds ?_
      refine ⟨⟨?_, ?_⟩, ?_⟩
      · constructor
        · intro h; exact absurd h (by simp)
        · intro h
          rcases hr with hr | hr <;> rw [hr] at h <;> exact absurd h (by simp)
      · constructor
        · intro h; exact absurd h (by simp)
        · intro h; exact absurd h (by simp)
      · intro _
        exact ⟨rfl, r, rfl, rfl⟩

/-- Groups are built from the HIGH filter followed by the MEDIUM filter, so
every recommendation inside every group is HIGH or MEDIUM. -/
theorem groupsOk (recommendations : List Recommendation) :
    ∀ g ∈ ((recommendations.filter (fun r => r.priority == "HIGH"))
        ++ (recommendations.filter (fun r => r.priority == "MEDIUM"))).foldl addToGroups [],
      ∀ r ∈ g.2, RecPriOk r := by
  refine foldl_inv (fun gs => ∀ g ∈ gs, ∀ r ∈ g.2, RecPriOk r) RecPriOk addToGroups ?_ _ []
    (by intro g hg; simp at hg) ?_
  · intro gs r hgs hr g hg
    unfold addToGroups at hg
    split at hg
    · rcases List.mem_map.mp hg with ⟨g0, hg0, hge⟩
      by_cases hk : (g0.1 == r.type) = true
      · rw [if_pos hk] at hge
        rcases hge with rfl
        intro q hq
        rcases List.mem_append.mp hq with h | h
        · exact hgs g0 hg0 q h
        · rcases List.mem_singleton.mp h with rfl
          exact hr
      · rw [if_neg hk] at hge
        rcases hge with rfl
        exact hgs g0 hg0
    · rcases List.mem_append.mp hg with h | h
      · exact hgs g h
      · rcases List.mem_singleton.mp h with rfl
        intro q hq
        rcases List.mem_singleton.mp hq with rfl
        exact hr
  · intro r hr
    rcases List.mem_append.mp hr with h | h
    · exact Or.inl (by simpa using (List.mem_filter.mp h).2)
    · exact Or.inr (by simpa using (List.mem_filter.mp h).2)

/-- C10. In every decision list the coordinator emits, being the
CRITICAL_BOTTLENECK_RESOLUTION kind, carrying priority CRITICAL and
carrying status URGENT are equivalent; every other decision has status
APPROVED and copies the priority of the source recommendation stored in
its details. -/
theorem c10_decision_kind_invariant (data : SupplyData) (bottlenecks : List Bottleneck)
    (recommendations : List Recommendation) (d : Decision)
    (hd : d ∈ make_decisions data bottlenecks recommendations) :
    ((d.type = "CRITICAL_BOTTLENECK_RESOLUTION" ↔ d.priority = "CRITICAL")
      ∧ (d.type = "CRITICAL_BOTTLENECK_RESOLUTION" ↔ d.status = "URGENT"))
    ∧ (d.type ≠ "CRITICAL_BOTTLENECK_RESOLUTION" →
        d.status = "APPROVED" ∧ ∃ r, d.details_rec = some r ∧ d.priority = r.priority) := by
  have hall : ∀ x ∈ make_decisions data bottlenecks recommendations, DecisionShapeOk x := by
    unfold make_decisions
    refine foldl_inv (fun ds => ∀ x ∈ ds, DecisionShapeOk x) (fun _ => True) _ ?_ _ _ ?_
      (fun _ _ => trivial)
    · intro ds b hds _
      refine shapeOk_push ds _ hds ⟨⟨?_, ?_⟩, ?_⟩
      · exact ⟨fun _ => rfl, fun _ => rfl⟩
      · exact ⟨fun _ => rfl, fun _ => rfl⟩
      · intro h; exact absurd rfl h
    · refine foldl_inv (fun ds => ∀ x ∈ ds, DecisionShapeOk x)
        (fun g => ∀ r ∈ g.2, RecPriOk r) processGroup ?_ _ []
        (by intro x hx; simp at hx) (groupsOk recommendations)
      intro ds g hds hg
      exact shapeOk_processGroup ds g hds hg
  exact hall d hd

/-- C10 witness: a concrete run with one recommendation-derived decision,
checked on its head element. -/
theorem c10_decision_kind_invariant_witness :
    (("GENERAL_ACTION" : String) = "CRITICAL_BOTTLENECK_RESOLUTION" ↔
        ("MEDIUM" : String) = "CRITICAL")
      ∧ (("GENERAL_ACTION" : String) = "CRITICAL_BOTTLENECK_RESOLUTION" ↔
        ("APPROVED" : String) = "URGENT") :=
  (c10_decision_kind_invariant {} []
    [{ type := "OPTIMIZE_CARRIER_SELECTION", priority := "MEDIUM", agent := "LogisticsOptimizer" }]
    { decision_id := 1, type := "GENERAL_ACTION", action := "OPTIMIZE_CARRIER_SELECTION",
      priority := "MEDIUM", status := "APPROVED",
      details_rec := some { type := "OPTIMIZE_CARRIER_SELECTION",
                            priority := "MEDIUM", agent := "LogisticsOptimizer" } }
    (by decide)).1

/-- C9. On every successful real-time status query (the reload plus the
detector rerun produced a bottleneck list), the overall status is CRITICAL
when more than 3 HIGH-severity bottlenecks were found, WARNING when there
is at least one but no more than 3, NORMAL when there are none, and
critical_issues is the first at most 5 HIGH-severity bottlenecks in
detection order. -/
theorem c9_realtime_status (loadResult : Except String SupplyData) (now : ℚ)
    (bs : List Bottleneck)
    (h : (loadResult >>= fun d => run_full_analysis d now) = .ok bs) :
    (get_real_time_status loadResult now).critical_issues
        = (bs.filter (fun b => b.severity == "HIGH")).take 5
    ∧ (get_real_time_status loadResult now).critical_issues_count
        = (bs.filter (fun b => b.severity == "HIGH")).length
    ∧ (3 < (bs.filter (fun b => b.severity == "HIGH")).length →
        (get_real_time_status loadResult now).overall_status = "CRITICAL")
    ∧ (1 ≤ (bs.filter (fun b => b.severity == "HIGH")).length
        ∧ (bs.filter (fun b => b.severity == "HIGH")).length ≤ 3 →
        (get_real_time_status loadResult now).overall_status = "WARNING")
    ∧ ((bs.filter (fun b => b.severity == "HIGH")).length = 0 →
        (get_real_time_status loadResult now).overall_status = "NORMAL") := by
  unfold get_real_time_status
  rw [h]
  refine ⟨rfl, rfl, ?_, ?_, ?_⟩
  · intro hgt
    simp only
    rw [if_pos hgt]
  · intro hw
    simp only
    rw [if_neg (by omega), if_pos (by omega)]
  · intro h0
    simp only
    rw [if_neg (by omega), if_neg (by omega)]

/-- C9 witness: the empty snapshot loads, detects nothing and reports
NORMAL with no critical issues. -/
theorem c9_realtime_status_witness :
    (get_real_time_status (.ok {}) 0).critical_issues = []
    ∧ (get_real_time_status (.ok {}) 0).critical_issues_count = 0
    ∧ (3 < (0 : ℕ) → (get_real_time_status (.ok {}) 0).overall_status = "CRITICAL")
    ∧ (1 ≤ (0 : ℕ) ∧ (0 : ℕ) ≤ 3 → (get_real_time_status (.ok {}) 0).overall_status = "WARNING")
    ∧ ((0 : ℕ) = 0 → (get_real_time_status (.ok {}) 0).overall_status = "NORMAL") :=
  c9_realtime_status (.ok {}) 0 [] rfl

/-- Error messages produced by pandas column lookups are never empty: they
start with the KeyError prefix. -/
theorem rowGet_error_ne (row : List (String × Cell)) (c e : String)
    (h : rowGet row c = .error e) : e ≠ "" := by
  unfold rowGet at h
  cases hf : List.find? (fun p => p.1 == c) row with
  | some p => rw [hf] at h; cases h
  | none =>
    rw [hf] at h
    injection h with he
    intro hc
    rw [← he] at hc
    have hlen := congrArg String.length hc
    rw [String.length_append] at hlen
    have h10 : ("KeyError: " : String).length = 10 := rfl
    have h0 : ("" : String).length = 0 := rfl
    omega

/-- Error propagation through one Except bind. -/
theorem bindE_error {α β : Type} (x : Except String α) (f : α → Except String β) (e : String)
    (hx : ∀ e1, x = .error e1 → e1 ≠ "") (hf : ∀ a e1, f a = .error e1 → e1 ≠ "")
    (h : x >>= f = .error e) : e ≠ "" := by
  cases x with
  | error e1 =>
    simp only [bind, Except.bind] at h
    injection h with he
    rw [← he]
    exact hx e1 rfl
  | ok a =>
    simp only [bind, Except.bind] at h
    exact hf a e h

/-- Error propagation through mapM over Except. -/
theorem mapME_error {α β : Type} (f : α → Except String β)
    (hf : ∀ a e, f a = .error e → e ≠ "") :
    ∀ (l : List α) (e : String), l.mapM f = .error e → e ≠ ""
  | [], e, h => by
    rw [List.mapM_nil] at h
    simp [pure, Except.pure] at h
  | a :: l, e, h => by
    rw [List.mapM_cons] at h
    refine bindE_error _ _ _ (fun e1 h1 => hf a e1 h1) ?_ h
    intro b e1 h1
    refine bindE_error _ _ _ (fun e2 h2 => mapME_error f hf l e2 h2) ?_ h1
    intro bs e2 h2
    simp [pure, Except.pure] at h2

/-- Every error the capacity bottleneck constructor can raise is a KeyError
message, hence nonempty. -/
theorem capacityBottleneck_error_ne (row : List (String × Cell)) (e : String)
    (h : capacityBottleneck row = .error e) : e ≠ "" := by
  unfold capacityBottleneck at h
  refine bindE_error _ _ _ (fun e1 h1 => rowGet_error_ne _ _ _ h1) ?_ h
  intro c1 e1 h1
  refine bindE_error _ _ _ (fun e2 h2 => rowGet_error_ne _ _ _ h2) ?_ h1
  intro c2 e2 h2
  refine bindE_error _ _ _ (fun e3 h3 => rowGet_error_ne _ _ _ h3) ?_ h2
  intro c3 e3 h3
  refine bindE_error _ _ _ (fun e4 h4 => rowGet_error_ne _ _ _ h4) ?_ h3
  intro c4 e4 h4
  refine bindE_error _ _ _ (fun e5 h5 => rowGet_error_ne _ _ _ h5) ?_ h4
  intro c5 e5 h5
  refine bindE_error _ _ _ (fun e6 h6 => rowGet_error_ne _ _ _ h6) ?_ h5
  intro c6 e6 h6
  simp [pure, Except.pure] at h6

/-- The capacity detector only raises KeyError messages. -/
theorem detect_capacity_error_ne (warehouses : List Warehouse)
    (inventory : List InventoryItem) (e : String)
    (h : detect_capacity_constraints warehouses inventory = .error e) : e ≠ "" := by
  unfold detect_capacity_constraints at h
  exact mapME_error capacityBottleneck (fun row e1 h1 => capacityBottleneck_error_ne row e1 h1)
    _ e h

/-- Any error escaping the full detector run is nonempty. -/
theorem run_full_analysis_error_ne (data : SupplyData) (now : ℚ) (e : String)
    (h : run_full_analysis data now = .error e) : e ≠ "" := by
  unfold run_full_analysis at h
  refine bindE_error _ _ _ (fun e1 h1 => detect_capacity_error_ne _ _ _ h1) ?_ h
  intro b3 e1 h1
  simp [pure, Except.pure] at h1

/-- An Except map that errors came from the same error. -/
theorem mapE_error {α β : Type} (x : Except String α) (f : α → β) (e : String)
    (h : x.map f = .error e) : x = .error e := by
  cases x with
  | ok a => simp [Except.map] at h
  | error e1 =>
    simp only [Except.map] at h
    injection h with he
    rw [he]

/-- One stage application preserves the status-error invariant whenever the
stage is guarded or the incoming state is not FAILED (the only unguarded
stage, load_data_node, runs first and only ever sees the fresh state). -/
theorem runStage_inv (st : Stage) (hok : StageOk st) (s : RunState)
    (hbranch : st.guarded = true ∨ s.status ≠ "FAILED")
    (h : StatusErrorInv s) : StatusErrorInv (runStage st s) := by
  unfold runStage
  by_cases hg : (st.guarded : Prop) ∧ s.status = "FAILED"
  · rw [if_pos hg]
    exact h
  · rw [if_neg hg]
    have hs : s.status ≠ "FAILED" := by
      rcases hbranch with hg1 | hns
      · intro hf
        exact hg ⟨by simpa using hg1, hf⟩
      · exact hns
    split
    case _ s' hb =>
      have herr : s'.error = s.error := hok.2.2 _ _ hb
      constructor
      · intro hst
        exact absurd hst hok.1
      · intro hne
        exfalso
        have hse : s.error = "" := by
          by_contra hne2
          exact hs (h.mpr hne2)
        simp only at hne
        rw [herr, hse] at hne
        exact hne rfl
    case _ e hb =>
      constructor
      · intro _
        exact hok.2.1 _ _ hb
      · intro _
        rfl

/-- The invariant survives any run of guarded, well-formed stages. -/
theorem execStages_inv (stages : List Stage)
    (hok : ∀ st ∈ stages, StageOk st ∧ st.guarded = true)
    (s : RunState) (h : StatusErrorInv s) : StatusErrorInv (execStages stages s) := by
  unfold execStages
  refine foldl_inv StatusErrorInv (fun st => StageOk st ∧ st.guarded = true) _ ?_ stages s h hok
  intro b a hb ha
  exact runStage_inv a ha.1 b (Or.inl ha.2) hb

/-- Each of the seven pipeline stages is well formed, given that the two
external collaborators raise nonempty messages. -/
theorem workflow_stageOk (loadResult : Except String SupplyData) (now : ℚ)
    (sinkResult : Except String String)
    (hl : ∀ e, loadResult = .error e → e ≠ "")
    (hsk : ∀ e, sinkResult = .error e → e ≠ "") :
    ∀ st ∈ workflow_steps loadResult now sinkResult, StageOk st := by
  intro st hst
  simp only [workflow_steps, List.mem_cons, List.not_mem_nil, or_false] at hst
  rcases hst with rfl | rfl | rfl | rfl | rfl | rfl | rfl
  · refine ⟨by simp, ?_, ?_⟩
    · intro s e h
      dsimp only at h
      exact hl e (mapE_error _ _ _ h)
    · intro s s' h
      dsimp only at h
      cases hlr : loadResult with
      | ok d => rw [hlr] at h; simp only [Except.map] at h; injection h with h2; rw [← h2]
      | error e1 => rw [hlr] at h; simp [Except.map] at h
  · refine ⟨by simp, ?_, ?_⟩
    · intro s e h
      dsimp only at h
      exact run_full_analysis_error_ne _ _ _ (mapE_error _ _ _ h)
    · intro s s' h
      dsimp only at h
      cases hrf : run_full_analysis s.data now with
      | ok bs => rw [hrf] at h; simp only [Except.map] at h; injection h with h2; rw [← h2]
      | error e1 => rw [hrf] at h; simp [Except.map] at h
  · refine ⟨by simp, ?_, ?_⟩
    · intro s e h
      dsimp only at h
      cases h
    · intro s s' h
      dsimp only at h
      injection h with h2
      rw [← h2]
  · refine ⟨by simp, ?_, ?_⟩
    · intro s e h
      dsimp only at h
      cases h
    · intro s s' h
      dsimp only at h
      injection h with h2
      rw [← h2]
  · refine ⟨by simp, ?_, ?_⟩
    · intro s e h
      dsimp only at h
      cases h
    · intro s s' h
      dsimp only at h
      injection h with h2
      rw [← h2]
  · refine ⟨by simp, ?_, ?_⟩
    · intro s e h
      dsimp only at h
      cases h
    · intro s s' h
      dsimp only at h
      injection h with h2
      rw [← h2]
  · refine ⟨by simp, ?_, ?_⟩
    · intro s e h
      dsimp only at h
      exact hsk e (mapE_error _ _ _ h)
    · intro s s' h
      dsimp only at h
      cases hsr : sinkResult with
      | ok fn => rw [hsr] at h; simp only [Except.map] at h; injection h with h2; rw [← h2]
      | error e1 => rw [hsr] at h; simp [Except.map] at h

/-- Stages after the first of the pipeline all start with the FAILED guard. -/
theorem workflow_tail_guarded (loadResult : Except String SupplyData) (now : ℚ)
    (sinkResult : Except String String) :
    ∀ st ∈ (workflow_steps loadResult now sinkResult).drop 1, st.guarded = true := by
  intro st hst
  simp only [workflow_steps, List.drop_succ_cons, List.drop_zero, List.mem_cons,
    List.not_mem_nil, or_false] at hst
  rcases hst with rfl | rfl | rfl | rfl | rfl | rfl <;> rfl

/-- The invariant holds after every prefix of a stage list whose stages are
well formed, whose tail is guarded, and whose start state satisfies it and
is not already FAILED. -/
theorem execStages_take_inv (stages : List Stage) (s0 : RunState) (k : ℕ)
    (hs0 : StatusErrorInv s0) (h0 : s0.status ≠ "FAILED")
    (hok : ∀ st ∈ stages, StageOk st)
    (hguard : ∀ st ∈ stages.drop 1, st.guarded = true) :
    StatusErrorInv (execStages (stages.take k) s0) := by
  cases stages with
  | nil =>
    simpa [execStages] using hs0
  | cons st1 rest =>
    cases k with
    | zero => simpa [execStages] using hs0
    | succ k =>
      rw [List.take_succ_cons]
      have h1 : StatusErrorInv (runStage st1 s0) :=
        runStage_inv st1 (hok st1 (by simp)) s0 (Or.inr h0) hs0
      have heq : execStages (st1 :: rest.take k) s0
          = execStages (rest.take k) (runStage st1 s0) := rfl
      rw [heq]
      refine execStages_inv (rest.take k) ?_ _ h1
      intro st hst
      have hmem : st ∈ rest := List.mem_of_mem_take hst
      exact ⟨hok st (by simp [hmem]), hguard st hmem⟩

/-- C4. The fresh run state starts not-FAILED with an empty error, and after
every stage transition of the driver (every prefix of the seven workflow
steps) the state satisfies status = FAILED exactly when error is nonempty.
The two hypotheses say the external loader and report sink raise nonempty
messages, as every detector-raised KeyError does. -/
theorem c4_status_error_invariant (loadResult : Except String SupplyData) (now : ℚ)
    (sinkResult : Except String String)
    (hl : ∀ e, loadResult = .error e → e ≠ "")
    (hsk : ∀ e, sinkResult = .error e → e ≠ "") (k : ℕ) :
    initialRunState.status ≠ "FAILED" ∧ initialRunState.error = ""
    ∧ StatusErrorInv (execStages ((workflow_steps loadResult now sinkResult).take k)
        initialRunState) := by
  refine ⟨by decide, rfl, ?_⟩
  refine execStages_take_inv _ _ k ?_ (by decide)
    (workflow_stageOk loadResult now sinkResult hl hsk)
    (workflow_tail_guarded loadResult now sinkResult)
  exact ⟨fun h => absurd h (by decide), fun h => absurd rfl h⟩

/-- C4 witness: a full successful run over the empty snapshot, checked after
all seven stages. -/
theorem c4_status_error_invariant_witness :
    initialRunState.status ≠ "FAILED" ∧ initialRunState.error = ""
    ∧ StatusErrorInv (execStages ((workflow_steps (.ok {}) 0 (.ok "report.json")).take 7)
        initialRunState) :=
  c4_status_error_invariant (.ok {}) 0 (.ok "report.json")
    (fun _ h => nomatch h) (fun _ h => nomatch h) 7

/-- A guarded stage is a no-op on a FAILED state. -/
theorem runStage_failed_noop (st : Stage) (hg : st.guarded = true) (s : RunState)
    (hs : s.status = "FAILED") : runStage st s = s := by
  unfold runStage
  rw [if_pos ⟨hg, hs⟩]

/-- What the driver loop guarantees when it returns a failure: the count of
invoked stages is the position of the failing stage, that stage's name is
reported, no earlier prefix was FAILED (it is the first failure), and the
state after the failing stage carries status FAILED and the reported
error. -/
theorem runLoop_failure :
    ∀ (stages : List Stage) (s : RunState) (e nm : String) (k : ℕ),
      s.status ≠ "FAILED" →
      runLoop stages s = (.failure e nm, k) →
      1 ≤ k ∧ k ≤ stages.length
        ∧ (∃ st, stages[k - 1]? = some st ∧ st.name = nm)
        ∧ (∀ j, j < k → (execStages (stages.take j) s).status ≠ "FAILED")
        ∧ (execStages (stages.take k) s).status = "FAILED"
        ∧ (execStages (stages.take k) s).error = e
  | [], s, e, nm, k, hs, h => by
    simp [runLoop] at h
  | st1 :: rest, s, e, nm, k, hs, h => by
    unfold runLoop at h
    by_cases hf : (runStage st1 s).status = "FAILED"
    · rw [if_pos hf] at h
      rw [Prod.mk.injEq] at h
      obtain ⟨hres, hk⟩ := h
      injection hres with he hnm
      subst hk
      refine ⟨le_refl 1, by simp, ⟨st1, by simp, hnm⟩, ?_, ?_, ?_⟩
      · intro j hj
        have hj0 : j = 0 := by omega
        subst hj0
        simpa [execStages] using hs
      · simpa [execStages] using hf
      · simpa [execStages] using he
    · rw [if_neg hf] at h
      rw [Prod.mk.injEq] at h
      obtain ⟨hres, hk⟩ := h
      have hrec : runLoop rest (runStage st1 s)
          = (.failure e nm, (runLoop rest (runStage st1 s)).2) := by
        rw [← hres]
      obtain ⟨ih1, ih2, ⟨st, ihst, ihnm⟩, ihall, ihF, ihE⟩ :=
        runLoop_failure rest (runStage st1 s) e nm _ hf hrec
      subst hk
      refine ⟨by omega, by simp; omega, ?_, ?_, ?_, ?_⟩
      · refine ⟨st, ?_, ihnm⟩
        have hk1 : (runLoop rest (runStage st1 s)).2 + 1 - 1
            = ((runLoop rest (runStage st1 s)).2 - 1) + 1 := by omega
        rw [hk1, List.getElem?_cons_succ]
        exact ihst
      · intro j hj
        cases j with
        | zero =>
          simpa [execStages] using hs
        | succ j =>
          have : execStages ((st1 :: rest).take (j + 1)) s
              = execStages (rest.take j) (runStage st1 s) := rfl
          rw [this]
          exact ihall j (by omega)
      · have : execStages ((st1 :: rest).take ((runLoop rest (runStage st1 s)).2 + 1)) s
            = execStages (rest.take (runLoop rest (runStage st1 s)).2) (runStage st1 s) := rfl
        rw [this]
        exact ihF
      · have : execStages ((st1 :: rest).take ((runLoop rest (runStage st1 s)).2 + 1)) s
            = execStages (rest.take (runLoop rest (runStage st1 s)).2) (runStage st1 s) := rfl
        rw [this]
        exact ihE

/-- C3 counterexample. The claim says the driver invokes all 7 stages even
after a failure. On a snapshot whose only anomaly is a 95 percent-full
warehouse, the detection stage raises the capacity KeyError and the
driver's loop returns at once: exactly 2 stages are invoked, not 7
(run_analysis returns the failure dict naming the stage, paired here with
the count of invoked stages). -/
theorem c3_claim_counterexample :
    run_analysis
        (.ok { warehouses := [{ warehouse_id := "W1", warehouse_name := "Main", capacity := 100 }],
               inventory := [{ product_id := "P1", product_name := "Widget", current_stock := 95,
                               min_threshold := 10, warehouse_id := "W1", supplier_id := "S1" }] })
        0 (.ok "report.json")
      = (.failure "KeyError: current_utilization" "detect_bottlenecks_node", 2)
    ∧ (2 : ℕ) ≠ 7 := by
  constructor
  · with_unfolding_all decide
  · decide

/-- C3 amended. Each stage after the first returns a FAILED state unchanged;
the driver, however, does not run through to the end: it stops at the
first stage that fails (invoking exactly k of the 7 stages when stage k is
the first to fail) and returns a failure result naming that stage and
carrying its error message. -/
theorem c3_amended (loadResult : Except String SupplyData) (now : ℚ)
    (sinkResult : Except String String) :
    (∀ st ∈ (workflow_steps loadResult now sinkResult).drop 1, ∀ s : RunState,
        s.status = "FAILED" → runStage st s = s)
    ∧ ∀ e nm k, run_analysis loadResult now sinkResult = (.failure e nm, k) →
        1 ≤ k ∧ k ≤ 7
          ∧ (∃ st, (workflow_steps loadResult now sinkResult)[k - 1]? = some st ∧ st.name = nm)
          ∧ (∀ j, j < k → (execStages ((workflow_steps loadResult now sinkResult).take j)
                initialRunState).status ≠ "FAILED")
          ∧ (execStages ((workflow_steps loadResult now sinkResult).take k)
                initialRunState).status = "FAILED"
          ∧ (execStages ((workflow_steps loadResult now sinkResult).take k)
                initialRunState).error = e := by
  constructor
  · intro st hst s hs
    exact runStage_failed_noop st (workflow_tail_guarded loadResult now sinkResult st hst) s hs
  · intro e nm k h
    obtain ⟨h1, h2, h3, h4, h5, h6⟩ :=
      runLoop_failure (workflow_steps loadResult now sinkResult) initialRunState e nm k
        (by decide) h
    exact ⟨h1, by simpa [workflow_steps] using h2, h3, h4, h5, h6⟩

/-- C3 witness: a run whose loader fails; the loop reports load_data_node
after invoking exactly one stage, and the no-op clause is exercised on the
second stage with an explicitly FAILED state. -/
theorem c3_amended_witness :
    (1 ≤ 1 ∧ 1 ≤ 7
      ∧ (∃ st, (workflow_steps (.error "boom") 0 (.ok "report.json"))[1 - 1]? = some st
          ∧ st.name = "load_data_node")
      ∧ (∀ j, j < 1 → (execStages ((workflow_steps (.error "boom") 0 (.ok "report.json")).take j)
            initialRunState).status ≠ "FAILED")
      ∧ (execStages ((workflow_steps (.error "boom") 0 (.ok "report.json")).take 1)
            initialRunState).status = "FAILED"
      ∧ (execStages ((workflow_steps (.error "boom") 0 (.ok "report.json")).take 1)
            initialRunState).error = "boom")
    ∧ runStage ((workflow_steps (.error "boom") 0 (.ok "report.json")).get
          ⟨1, by simp [workflow_steps]⟩)
        { status := "FAILED", error := "boom" }
      = { status := "FAILED", error := "boom" } :=
  ⟨(c3_amended (.error "boom") 0 (.ok "report.json")).2 "boom" "load_data_node" 1 (by decide),
   (c3_amended (.error "boom") 0 (.ok "report.json")).1 _ (by simp [workflow_steps])
     { status := "FAILED", error := "boom" } rfl⟩

/-- Inserting into the date-sorted list adds one element. -/
theorem insertByDate_length (r : DemandRecord) :
    ∀ l : List DemandRecord, (insertByDate r l).length = l.length + 1
  | [] => rfl
  | x :: xs => by
    unfold insertByDate
    split
    · simp
    · simp [insertByDate_length r xs]

/-- Sorting by date preserves the number of rows. -/
theorem sortByDate_length : ∀ l : List DemandRecord, (sortByDate l).length = l.length
  | [] => rfl
  | a :: l => by
    show (insertByDate a (sortByDate l)).length = l.length + 1
    rw [insertByDate_length, sortByDate_length l]

/-- Tail of a date-sorted list is date-sorted. -/
theorem isSortedByDate_tail (a : DemandRecord) (l : List DemandRecord)
    (h : isSortedByDate (a :: l) = true) : isSortedByDate l = true := by
  cases l with
  | nil => rfl
  | cons b t =>
    unfold isSortedByDate at h
    rw [Bool.and_eq_true] at h
    exact h.2

/-- Head comparison of a date-sorted list. -/
theorem isSortedByDate_head (a b : DemandRecord) (l : List DemandRecord)
    (h : isSortedByDate (a :: b :: l) = true) : a.date ≤ b.date := by
  unfold isSortedByDate at h
  rw [Bool.and_eq_true] at h
  exact of_decide_eq_true h.1

/-- sort_values is the identity on rows already ordered by date. -/
theorem sortByDate_sorted_id :
    ∀ l : List DemandRecord, isSortedByDate l = true → sortByDate l = l
  | [], _ => rfl
  | a :: l, h => by
    show insertByDate a (sortByDate l) = a :: l
    rw [sortByDate_sorted_id l (isSortedByDate_tail a l h)]
    cases l with
    | nil => rfl
    | cons b t =>
      unfold insertByDate
      rw [if_pos (isSortedByDate_head a b t h)]

/-- Every spike bottleneck of one product group carries that product's id. -/
theorem spikesForProduct_pid (hist : List DemandRecord) (q : String) :
    ∀ b ∈ spikesForProduct hist q, b.product_id = some q := by
  intro b hb
  unfold spikesForProduct at hb
  dsimp only at hb
  split at hb
  · simp at hb
  · split at hb
    · simp at hb
    · split at hb
      · rcases List.mem_singleton.mp hb with rfl
        rfl
      · simp at hb

/-- The unique() pass emits no repeated product id. -/
theorem uniqAux_nodup : ∀ (l : List DemandRecord) (acc : List String),
    acc.Nodup → (uniqAux acc l).Nodup
  | [], _, h => h
  | r :: rest, acc, h => by
    unfold uniqAux
    split
    · exact uniqAux_nodup rest acc h
    case _ hnotin =>
      refine uniqAux_nodup rest _ ?_
      simp [List.nodup_append, h, hnotin]

/-- Membership in the unique() pass: seed keys or keys of the rows. -/
theorem uniqAux_mem : ∀ (l : List DemandRecord) (acc : List String) (pid : String),
    pid ∈ uniqAux acc l ↔ pid ∈ acc ∨ ∃ r ∈ l, r.product_id = pid
  | [], acc, pid => by simp [uniqAux]
  | r :: rest, acc, pid => by
    unfold uniqAux
    by_cases hc : r.product_id ∈ acc
    · rw [if_pos hc, uniqAux_mem rest acc pid]
      constructor
      · rintro (h | ⟨q, hq, hqe⟩)
        · exact Or.inl h
        · exact Or.inr ⟨q, by simp [hq], hqe⟩
      · rintro (h | ⟨q, hq, hqe⟩)
        · exact Or.inl h
        · rcases List.mem_cons.mp hq with rfl | hq2
          · exact Or.inl (hqe ▸ hc)
          · exact Or.inr ⟨q, hq2, hqe⟩
    · rw [if_neg hc, uniqAux_mem rest _ pid]
      constructor
      · rintro (h | ⟨q, hq, hqe⟩)
        · rcases List.mem_append.mp h with h2 | h2
          · exact Or.inl h2
          · exact Or.inr ⟨r, by simp, (List.mem_singleton.mp h2).symm⟩
        · exact Or.inr ⟨q, by simp [hq], hqe⟩
      · rintro (h | ⟨q, hq, hqe⟩)
        · exact Or.inl (List.mem_append.mpr (Or.inl h))
        · rcases List.mem_cons.mp hq with rfl | hq2
          · exact Or.inl (List.mem_append.mpr (Or.inr (by simp [hqe])))
          · exact Or.inr ⟨q, hq2, hqe⟩

/-- The grouped product ids are exactly the ids occurring in the history. -/
theorem uniquePids_mem (l : List DemandRecord) (pid : String) :
    pid ∈ uniquePids l ↔ ∃ r ∈ l, r.product_id = pid := by
  rw [uniquePids, uniqAux_mem]
  simp

/-- The grouped product ids have no repeats. -/
theorem uniquePids_nodup (l : List DemandRecord) : (uniquePids l).Nodup :=
  uniqAux_nodup l [] List.nodup_nil

/-- Filtering the concatenated spike groups by a product keeps exactly that
product's group (the groups are keyed by distinct ids). -/
theorem filter_flatMap_spikes (hist : List DemandRecord) (pid : String) :
    ∀ (L : List String), L.Nodup →
      (L.flatMap (spikesForProduct hist)).filter (fun b => b.product_id == some pid)
        = if pid ∈ L then spikesForProduct hist pid else []
  | [], _ => by simp
  | q :: L, hnd => by
    rw [List.flatMap_cons, List.filter_append]
    have hqn := (List.nodup_cons.mp hnd).1
    rw [filter_flatMap_spikes hist pid L (List.nodup_cons.mp hnd).2]
    by_cases hq : q = pid
    · subst hq
      have h1 : (spikesForProduct hist q).filter (fun b => b.product_id == some q)
          = spikesForProduct hist q := by
        rw [List.filter_eq_self]
        intro b hb
        simp [spikesForProduct_pid hist q b hb]
      rw [h1, if_neg hqn, if_pos (by simp)]
      simp
    · have h1 : (spikesForProduct hist q).filter (fun b => b.product_id == some pid) = [] := by
        rw [List.filter_eq_nil]
        intro b hb
        simp [spikesForProduct_pid hist q b hb, hq]
      rw [h1]
      by_cases hmem : pid ∈ L
      · rw [if_pos hmem, if_pos (by simp [hmem])]
        simp
      · rw [if_neg hmem, if_neg ?_]
        · simp
        · simp only [List.mem_cons, hmem, or_false]
          exact fun h => hq h.symm

/-- C7. The demand-spike detector never flags a product with fewer than 3
demand rows; for a product whose rows arrive already ordered by date with
at least 3 of them, the detector emits exactly one MEDIUM bottleneck for
that product when the final row's demand exceeds 1.5 times the trailing
window-3 moving average (the mean of the last 3 rows), dated at that most
recent observation, and nothing otherwise. -/
theorem c7_demand_spike_behavior (hist : List DemandRecord) (pid : String) :
    ((hist.filter (fun r => r.product_id == pid)).length < 3 →
        ∀ b ∈ detect_demand_spikes hist, b.product_id ≠ some pid)
    ∧ (isSortedByDate (hist.filter (fun r => r.product_id == pid)) = true →
        3 ≤ (hist.filter (fun r => r.product_id == pid)).length →
        ∀ last ∈ (hist.filter (fun r => r.product_id == pid)).getLast?,
          (detect_demand_spikes hist).filter (fun b => b.product_id == some pid)
            = (if lastRolling3 ((hist.filter (fun r => r.product_id == pid)).map
                    (·.demand_quantity)) * 1.5 < last.demand_quantity
               then [spikeBottleneck pid last
                      (lastRolling3 ((hist.filter (fun r => r.product_id == pid)).map
                        (·.demand_quantity)))]
               else []))
    ∧ (∀ q l a, (spikeBottleneck q l a).severity = "MEDIUM"
        ∧ (spikeBottleneck q l a).date = some l.date) := by
  refine ⟨?_, ?_, fun q l a => ⟨rfl, rfl⟩⟩
  · intro hlen b hb hid
    unfold detect_demand_spikes at hb
    rcases List.mem_flatMap.mp hb with ⟨q, _, hbq⟩
    have hq2 := spikesForProduct_pid hist q b hbq
    rw [hid] at hq2
    injection hq2 with hq3
    subst hq3
    unfold spikesForProduct at hbq
    dsimp only at hbq
    have hlt : (sortByDate (hist.filter (fun r => r.product_id == pid))).length < 3 := by
      rw [sortByDate_length]
      exact hlen
    rw [if_pos hlt] at hbq
    simp at hbq
  · intro hsort hlen last hlast
    unfold detect_demand_spikes
    rw [filter_flatMap_spikes hist pid (uniquePids hist) (uniquePids_nodup hist)]
    have hmem : pid ∈ uniquePids hist := by
      rw [uniquePids_mem]
      have hne : hist.filter (fun r => r.product_id == pid) ≠ [] := by
        intro hnil
        rw [hnil] at hlen
        simp at hlen
      rcases List.exists_mem_of_ne_nil _ hne with ⟨r, hr⟩
      have hrr := List.mem_filter.mp hr
      exact ⟨r, hrr.1, by simpa using hrr.2⟩
    rw [if_pos hmem]
    unfold spikesForProduct
    dsimp only
    rw [sortByDate_sorted_id _ hsort]
    rw [if_neg (by omega)]
    rw [Option.mem_def.mp hlast]
    simp only [decide_eq_true_eq]

/-- C7 witness: product Q with only 2 rows is not flagged even though its
demand explodes, and product P with rows 10, 10, 100 (mean of last three
40, threshold 60) is flagged exactly per the moving-average test. -/
theorem c7_demand_spike_behavior_witness :
    (spikeBottleneck "P" ⟨"P", 3, 100⟩ 40).product_id ≠ some "Q"
    ∧ (detect_demand_spikes [⟨"P", 1, 10⟩, ⟨"P", 2, 10⟩, ⟨"P", 3, 100⟩]).filter
        (fun b => b.product_id == some "P")
      = (if lastRolling3 ((([⟨"P", 1, 10⟩, ⟨"P", 2, 10⟩,
              ⟨"P", 3, 100⟩] : List DemandRecord).filter
              (fun r => r.product_id == "P")).map (·.demand_quantity)) * 1.5
            < (⟨"P", 3, 100⟩ : DemandRecord).demand_quantity
         then [spikeBottleneck "P" ⟨"P", 3, 100⟩
                (lastRolling3 ((([⟨"P", 1, 10⟩, ⟨"P", 2, 10⟩,
                  ⟨"P", 3, 100⟩] : List DemandRecord).filter
                  (fun r => r.product_id == "P")).map (·.demand_quantity)))]
         else []) :=
  ⟨(c7_demand_spike_behavior
      [⟨"P", 1, 10⟩, ⟨"P", 2, 10⟩, ⟨"P", 3, 100⟩, ⟨"Q", 1, 1000⟩, ⟨"Q", 2, 9999⟩] "Q").1
      (by decide) (spikeBottleneck "P" ⟨"P", 3, 100⟩ 40) (by with_unfolding_all decide),
   (c7_demand_spike_behavior [⟨"P", 1, 10⟩, ⟨"P", 2, 10⟩, ⟨"P", 3, 100⟩] "P").2.1
      (by decide) (by decide) ⟨"P", 3, 100⟩ (Option.mem_def.mpr rfl)⟩

end SupplyChain
